import Mathlib

/-!
Verification development for the unicode-atlas repository.

The repository is a browser-based Unicode character explorer.  The core under
verification is the client-side filtering pipeline of the main page
(`Home` in `src/components/character-grid.tsx`), the incremental grid renderer
(`CharacterGrid` in the same file), the similar-character resolver of the
detail modal (`CharacterModal`), and the selection manager.

Modelling conventions:
* JavaScript strings are lists of UTF-16 code units (`JSStr`); `codePointAt0`
  models `s.codePointAt(0)`.
* `String.fromCodePoint` throws a `RangeError` exactly when its argument is
  not a valid code point; over natural numbers that means `cp > 0x10FFFF`.
  A function that may throw is embedded with an `Option` result, and a caller
  that does not catch is embedded so that a `none` aborts the whole
  computation (`mapOrThrow`).
* The library module `@/lib/unicode-data` (category table, search index,
  per-category generators, type predicates) and the static table
  `@/lib/similar-characters` are not part of the sources under `src/`; the
  pipeline treats them as opaque data, so they are abstracted into an
  environment record `Env` over which all theorems quantify.
* A JavaScript `Set` over numbers is modelled as an insertion-ordered
  duplicate-free list: `has` is membership, `add` appends when absent,
  `delete` removes the element.
-/

namespace UnicodeAtlas

/-- A JavaScript string: a finite sequence of UTF-16 code units. -/
abbrev JSStr := List Nat

/-- `s.codePointAt(0)`: `none` on the empty string; combines a leading
surrogate pair, otherwise returns the first code unit. -/
def codePointAt0 : JSStr → Option Nat
  | [] => none
  | u :: rest =>
    if 0xD800 ≤ u ∧ u ≤ 0xDBFF then
      match rest with
      | l :: _ =>
        if 0xDC00 ≤ l ∧ l ≤ 0xDFFF then
          some (0x10000 + (u - 0xD800) * 0x400 + (l - 0xDC00))
        else some u
      | [] => some u
    else some u

/-- `String.fromCodePoint` on a valid code point, as UTF-16 code units. -/
def utf16Encode (cp : Nat) : JSStr :=
  if cp < 0x10000 then [cp]
  else [0xD800 + (cp - 0x10000) / 0x400, 0xDC00 + (cp - 0x10000) % 0x400]

/-- `n.toString(16).toUpperCase()`. -/
def toHexUpper (n : Nat) : String :=
  String.mk ((Nat.toDigits 16 n).map Char.toUpper)

/-- `n.toString(16).toUpperCase().padStart(4, "0")`. -/
def padHex4 (n : Nat) : String :=
  let ds := (Nat.toDigits 16 n).map Char.toUpper
  String.mk (List.replicate (4 - ds.length) '0' ++ ds)

/-- One entry of the static `UNICODE_CATEGORIES` table. -/
structure Category where
  id : String
  name : String
  range : Nat × Nat
deriving DecidableEq

/-- The `UnicodeCharacter` display record from `@/lib/unicode-data`. -/
structure UnicodeCharacter where
  char : JSStr
  codePoint : Nat
  name : String
  commonName : Option String
  category : String
  htmlEntity : String
  cssCode : String
deriving DecidableEq

/-- The static library data the pipeline depends on
(`@/lib/unicode-data` and `@/lib/similar-characters` are outside `src/`,
so they are kept abstract and every theorem quantifies over them). -/
structure Env where
  UNICODE_CATEGORIES : List Category
  getCommonName : Nat → Option String
  isCharacter : Nat → Bool
  isSymbol : Nat → Bool
  isNumber : Nat → Bool
  isEmoji : Nat → Bool
  searchCharacters : String → Option (List String) → List UnicodeCharacter
  generateCharactersForCategory : Category → List UnicodeCharacter
  SIMILAR_CHARACTERS : Nat → Option (List Nat)

/-- The record built by `createCharacterFromCodePoint` once
`String.fromCodePoint` has succeeded (i.e. for `codePoint ≤ 0x10FFFF`). -/
def buildCharacter (env : Env) (codePoint : Nat) : UnicodeCharacter :=
  { char := utf16Encode codePoint
    codePoint := codePoint
    name := "Unicode U+" ++ padHex4 codePoint
    commonName := env.getCommonName codePoint
    category :=
      match env.UNICODE_CATEGORIES.find?
          (fun c => c.range.1 ≤ codePoint ∧ codePoint ≤ c.range.2) with
      | some c => if c.name = "" then "Unknown" else c.name
      | none => "Unknown"
    htmlEntity := "&#" ++ toString codePoint ++ ";"
    cssCode := "\\" ++ toHexUpper codePoint }

/-- `createCharacterFromCodePoint` (defined identically in `Home` and in
`CharacterModal`): throws, i.e. returns `none`, exactly when
`String.fromCodePoint` throws. -/
def createCharacterFromCodePoint (env : Env) (codePoint : Nat) :
    Option UnicodeCharacter :=
  if codePoint ≤ 0x10FFFF then some (buildCharacter env codePoint) else none

/-- `s.trim()`: strip leading and trailing whitespace.  (Defined over the
character list so that it evaluates inside the kernel; it agrees with
JavaScript `trim` up to the exact whitespace class, which is irrelevant
here because only emptiness of the result is ever inspected.) -/
def jsTrim (s : String) : String :=
  String.mk
    (((s.data.dropWhile Char.isWhitespace).reverse.dropWhile
        Char.isWhitespace).reverse)

/-- The `nonEmojiTypes` constant of the type-filter stage. -/
def nonEmojiTypes : List String := ["characters", "symbols", "numbers"]

/-- The filter-relevant state of `Home`:
`selectedCategories`, `selectedTypes`, `searchQuery`, `drawnCharacters`. -/
structure FilterState where
  selectedCategories : List String
  selectedTypes : List String
  searchQuery : String
  drawnCharacters : List JSStr
deriving DecidableEq

/-- `l.map f` for a throwing `f` with no surrounding catch: the first
`none` aborts the whole batch. -/
def mapOrThrow (f : α → Option β) : List α → Option (List β)
  | [] => some []
  | a :: as =>
    match f a with
    | none => none
    | some b => (mapOrThrow f as).map (fun bs => b :: bs)

/-- The `selectedNotInResults` accumulation in the search branch of the
`characters` memo: each selected code point absent from the search results
is converted, and a conversion failure skips just that item
(`try ... catch ... // Skip invalid code points`). -/
def selectedNotInResults (env : Env) (resultCodePoints : List Nat)
    (selectedCharacters : List Nat) : List UnicodeCharacter :=
  selectedCharacters.filterMap (fun cp =>
    if cp ∈ resultCodePoints then none
    else createCharacterFromCodePoint env cp)

/-- Base-candidate selection of the `characters` memo in `Home`
(the part before the type filter): drawn characters, else search
(with selected-but-absent code points prepended), else category browsing. -/
def baseCandidates (env : Env) (st : FilterState)
    (selectedCharacters : List Nat) : Option (List UnicodeCharacter) :=
  if 0 < st.drawnCharacters.length then
    mapOrThrow
      (fun s => createCharacterFromCodePoint env ((codePointAt0 s).getD 0))
      st.drawnCharacters
  else if jsTrim st.searchQuery ≠ "" then
    let result := env.searchCharacters st.searchQuery
      (if 0 < st.selectedCategories.length then some st.selectedCategories
       else none)
    if 0 < selectedCharacters.length then
      let resultCodePoints := result.map (fun c => c.codePoint)
      some (selectedNotInResults env resultCodePoints selectedCharacters
              ++ result)
    else some result
  else
    let categoriesToShow :=
      if 0 < st.selectedCategories.length then
        env.UNICODE_CATEGORIES.filter
          (fun c => decide (c.id ∈ st.selectedCategories))
      else env.UNICODE_CATEGORIES
    some ((categoriesToShow.map env.generateCharactersForCategory).flatten)

/-- The type-filter stage of the `characters` memo: partition into
emoji/non-emoji, apply the non-emoji type filter (unfiltered when the
selected non-emoji types number 0 or 3), then append the emoji records
when "emojis" is selected.  The source builds `emojiChars` and
`nonEmojiChars` in one pass pushing into two arrays, which is the same as
the two order-preserving filters used here. -/
def applyTypeFilter (env : Env) (selectedTypes : List String)
    (result : List UnicodeCharacter) : List UnicodeCharacter :=
  let selectedNonEmojiTypes :=
    selectedTypes.filter (fun t => decide (t ∈ nonEmojiTypes))
  let emojiChars := result.filter (fun ch => env.isEmoji ch.codePoint)
  let nonEmojiChars := result.filter (fun ch => !env.isEmoji ch.codePoint)
  let filteredResult :=
    if selectedNonEmojiTypes.length = 0 ∨ selectedNonEmojiTypes.length = 3 then
      nonEmojiChars
    else
      nonEmojiChars.filter (fun ch =>
        (decide ("characters" ∈ selectedTypes) && env.isCharacter ch.codePoint) ||
        (decide ("symbols" ∈ selectedTypes) && env.isSymbol ch.codePoint) ||
        (decide ("numbers" ∈ selectedTypes) && env.isNumber ch.codePoint))
  if "emojis" ∈ selectedTypes then filteredResult ++ emojiChars
  else filteredResult

/-- The full `characters` memo of `Home`: base candidates, then the type
filter.  `none` models an uncaught exception. -/
def characters (env : Env) (st : FilterState)
    (selectedCharacters : List Nat) : Option (List UnicodeCharacter) :=
  (baseCandidates env st selectedCharacters).map
    (applyTypeFilter env st.selectedTypes)

/-- `selectedCharactersList` in `Home`: the visible filtered list restricted
to the selected code points. -/
def selectedCharactersList (env : Env) (st : FilterState)
    (selectedCharacters : List Nat) : Option (List UnicodeCharacter) :=
  (characters env st selectedCharacters).map
    (fun cs => cs.filter (fun c => decide (c.codePoint ∈ selectedCharacters)))

/-- Second definition for the refinement claim about the filter pipeline,
following the words of spec section 4.4, step 1: "if drawn-code-point list is
non-empty, base = records for those code points (in drawn order); else if
query is non-empty, base = `search(query, categories)`, with any
currently-selected-but-absent code points prepended ...; else base =
concatenation of `generateCharactersForCategory` over selected categories
(or all categories if none selected), in category-table order." -/
def specBaseList (env : Env) (st : FilterState)
    (selectedCharacters : List Nat) : List UnicodeCharacter :=
  if st.drawnCharacters ≠ [] then
    st.drawnCharacters.map
      (fun s => buildCharacter env ((codePointAt0 s).getD 0))
  else if jsTrim st.searchQuery ≠ "" then
    let results := env.searchCharacters st.searchQuery
      (if st.selectedCategories ≠ [] then some st.selectedCategories else none)
    let absent := selectedCharacters.filter
      (fun cp => !decide (cp ∈ results.map (fun c => c.codePoint)))
    absent.map (buildCharacter env) ++ results
  else
    (((if st.selectedCategories ≠ [] then
        env.UNICODE_CATEGORIES.filter
          (fun c => decide (c.id ∈ st.selectedCategories))
      else env.UNICODE_CATEGORIES)).map
        env.generateCharactersForCategory).flatten

/-- Spec section 4.4, steps 2-4: partition the base into emoji / non-emoji;
keep all non-emoji records when the selected non-emoji types are none or all
three of "characters", "symbols", "numbers", otherwise keep the records
matching at least one selected predicate (logical OR); append all emoji
records exactly when "emojis" is among the selected types. -/
def specTypeFilter (env : Env) (selectedTypes : List String)
    (base : List UnicodeCharacter) : List UnicodeCharacter :=
  let emoji := base.filter (fun ch => env.isEmoji ch.codePoint)
  let nonEmoji := base.filter (fun ch => !env.isEmoji ch.codePoint)
  let filtered :=
    if (∀ t ∈ nonEmojiTypes, t ∉ selectedTypes) ∨
        (∀ t ∈ nonEmojiTypes, t ∈ selectedTypes) then
      nonEmoji
    else
      nonEmoji.filter (fun ch =>
        (decide ("characters" ∈ selectedTypes) && env.isCharacter ch.codePoint) ||
        (decide ("symbols" ∈ selectedTypes) && env.isSymbol ch.codePoint) ||
        (decide ("numbers" ∈ selectedTypes) && env.isNumber ch.codePoint))
  if "emojis" ∈ selectedTypes then filtered ++ emoji else filtered

/-- Spec section 4.4 as one function: final list from a Filter State. -/
def specFinalList (env : Env) (st : FilterState)
    (selectedCharacters : List Nat) : List UnicodeCharacter :=
  specTypeFilter env st.selectedTypes (specBaseList env st selectedCharacters)

/-! ### Similar-character resolver (`CharacterModal`) -/

/-- Conversion of a list of code points to display records with the
individual try/catch skip used in both branches of `computeSimilarViaAPI`:
`.map(cp => try createCharacterFromCodePoint(cp) catch null).filter(≠ null)`. -/
def codePointsToCharacters (env : Env) (codePoints : List Nat) :
    List UnicodeCharacter :=
  codePoints.filterMap (createCharacterFromCodePoint env)

/-- The recognition-service branch of `computeSimilarViaAPI`.
`apiResponse = none` models a network failure or a non-2xx status (the
`catch` yields an empty list); `some chars` is `data.characters || []`.
The first entry is dropped (it echoes the query glyph), each remaining
string is converted by `codePointAt(0)` with `undefined` and the query code
point filtered out, and record construction skips failures. -/
def similarViaAPIResponse (env : Env) (currentCodePoint : Nat)
    (apiResponse : Option (List JSStr)) : List UnicodeCharacter :=
  match apiResponse with
  | none => []
  | some unicodeChars =>
    let similarCodePoints := (unicodeChars.drop 1).filterMap (fun s =>
      match codePointAt0 s with
      | none => none
      | some cp => if cp = currentCodePoint then none else some cp)
    codePointsToCharacters env similarCodePoints

/-- The result `computeSimilarViaAPI` computes for a query code point:
the Boolean records whether the external recognition service was called.
With `forceRecompute = false` a precomputed `SIMILAR_CHARACTERS` entry is
used directly (no API call, records built with the individual skip and the
queried code point not excluded); otherwise the API branch runs. -/
def similarResult (env : Env) (currentCodePoint : Nat)
    (forceRecompute : Bool) (apiResponse : Option (List JSStr)) :
    Bool × List UnicodeCharacter :=
  if forceRecompute = false then
    match env.SIMILAR_CHARACTERS currentCodePoint with
    | some precomputedCodePoints =>
      (false, codePointsToCharacters env precomputedCodePoints)
    | none => (true, similarViaAPIResponse env currentCodePoint apiResponse)
  else (true, similarViaAPIResponse env currentCodePoint apiResponse)

/-- The staleness-relevant state of `CharacterModal`:
`currentCodePointRef` and the displayed `similarCharacters` list. -/
structure ModalState where
  currentCodePointRef : Option Nat
  similarCharacters : List UnicodeCharacter
deriving DecidableEq

/-- The effect that runs when the modal switches to a character with a new
code point: `currentCodePointRef.current = character.codePoint`. -/
def setCurrentCharacter (st : ModalState) (cp : Nat) : ModalState :=
  { st with currentCodePointRef := some cp }

/-- Completion of a `computeSimilarViaAPI` call that was issued for
`requestCodePoint`: every branch (precomputed, API success, API failure)
applies its result only under
`currentCodePointRef.current === currentCodePoint`, where the reference is
read at the moment of resolution. -/
def resolveSimilar (env : Env) (st : ModalState) (requestCodePoint : Nat)
    (forceRecompute : Bool) (apiResponse : Option (List JSStr)) : ModalState :=
  if st.currentCodePointRef = some requestCodePoint then
    { st with similarCharacters :=
        (similarResult env requestCodePoint forceRecompute apiResponse).2 }
  else st

/-! ### Incremental grid renderer (`CharacterGrid`) -/

def BATCH_SIZE : Nat := 200

def LOAD_THRESHOLD : Nat := 300

/-- The renderer state carried across candidate-list replacements:
`visibleCount`, the continuously saved `scrollPositionRef`, and
`previousCharactersLengthRef`. -/
structure GridState where
  visibleCount : Nat
  scrollPosition : ℚ
  previousCharactersLength : Nat
deriving DecidableEq

/-- `isLikelyFilterChange` in the characters-change effect.  The third
conjunct is the exact integer form of
`Math.abs(currentLength - previousLength) < previousLength * 0.8`: the
absolute difference is an integer and for list lengths below `2^50` the
IEEE-double product `previousLength * 0.8` is never within its rounding
error of a distinct integer, so the double comparison of the source agrees
with the exact comparison `5 * |Δ| < 4 * previousLength` used here (the
equivalence with the literal `0.8` form over ℚ is proved below). -/
def isLikelyFilterChange (previousLength currentLength : Nat)
    (savedScrollPosition : ℚ) : Prop :=
  0 < previousLength ∧ 0 < currentLength ∧
    5 * (max currentLength previousLength - min currentLength previousLength)
      < 4 * previousLength ∧
    100 < savedScrollPosition

instance (p c : Nat) (s : ℚ) : Decidable (isLikelyFilterChange p c s) :=
  inferInstanceAs (Decidable (_ ∧ _ ∧ _ ∧ _))

/-- The characters-change effect of `CharacterGrid`: a filter-change keeps
`visibleCount` and the saved scroll position (restored after the next
paint); any other transition resets `visibleCount` to `BATCH_SIZE` and the
scroll position to zero.  Both branches record the new length. -/
def onCharactersChange (st : GridState) (currentLength : Nat) : GridState :=
  if isLikelyFilterChange st.previousCharactersLength currentLength
      st.scrollPosition then
    { st with previousCharactersLength := currentLength }
  else
    { visibleCount := BATCH_SIZE
      scrollPosition := 0
      previousCharactersLength := currentLength }

/-- `visibleCharacters = characters.slice(0, visibleCount)`. -/
def visibleCharacters (chars : List UnicodeCharacter) (visibleCount : Nat) :
    List UnicodeCharacter :=
  chars.take visibleCount

/-- `handleScroll`: while the `loadingRef` cooldown is clear, a scroll whose
distance from the bottom is within `LOAD_THRESHOLD` and that still has
unrendered candidates grows `visibleCount` by one batch, capped at the
candidate count. -/
def handleScroll (loading : Bool) (visibleCount charactersLength : Nat)
    (distanceFromBottom : ℚ) : Nat :=
  if loading then visibleCount
  else if distanceFromBottom < (LOAD_THRESHOLD : ℚ) ∧
      visibleCount < charactersLength then
    min (visibleCount + BATCH_SIZE) charactersLength
  else visibleCount

/-! ### Selection manager and `Home` event handlers -/

/-- The selection toggle used both by `handleSelectCharacter` (selection
mode) and by the grid's `onToggleSelect` callback: delete the code point
from the `Set` when present, add it when absent. -/
def onToggleSelect (selectedCharacters : List Nat) (codePoint : Nat) :
    List Nat :=
  if codePoint ∈ selectedCharacters then
    selectedCharacters.filter (fun cp => cp ≠ codePoint)
  else selectedCharacters ++ [codePoint]

/-- The full filter-relevant state of `Home`, selection included. -/
structure HomeState where
  filter : FilterState
  selectedCharacters : List Nat
  selectionMode : Bool
deriving DecidableEq

/-- The filter- and search-changing events of `Home`
(`handleSearchChange`, `handleDrawSearch`, `handleToggleCategory`,
`handleSelectAll`, `handleClearAll`, `handleToggleType`). -/
inductive HomeEvent where
  | searchChange (query : String)
  | drawSearch (chars : List JSStr)
  | toggleCategory (categoryId : String)
  | selectAllCategories
  | clearAllCategories
  | toggleType (t : String)

/-- State transition of `Home` for each filter/search event handler. -/
def homeStep (env : Env) (st : HomeState) : HomeEvent → HomeState
  | .searchChange query =>
    { st with filter :=
        { st.filter with searchQuery := query, drawnCharacters := [] } }
  | .drawSearch chars =>
    { st with filter :=
        { st.filter with drawnCharacters := chars, searchQuery := "" } }
  | .toggleCategory categoryId =>
    { st with filter :=
        { st.filter with
          selectedCategories :=
            if categoryId ∈ st.filter.selectedCategories then
              st.filter.selectedCategories.filter (fun i => i ≠ categoryId)
            else st.filter.selectedCategories ++ [categoryId]
          drawnCharacters := [] } }
  | .selectAllCategories =>
    { st with filter :=
        { st.filter with
          selectedCategories := env.UNICODE_CATEGORIES.map (fun c => c.id)
          drawnCharacters := [] } }
  | .clearAllCategories =>
    { st with filter :=
        { st.filter with selectedCategories := [], drawnCharacters := [] } }
  | .toggleType t =>
    { st with filter :=
        { st.filter with
          selectedTypes :=
            if t ∈ st.filter.selectedTypes then
              st.filter.selectedTypes.filter (fun x => x ≠ t)
            else st.filter.selectedTypes ++ [t]
          drawnCharacters := [] } }

/-! ### Concrete instances used by witnesses and counterexamples -/

/-- A sample category table entry. -/
def cat0 : Category := { id := "misc", name := "Misc", range := (65, 66) }

/-- A sample non-emoji display record. -/
def recA : UnicodeCharacter :=
  { char := [65], codePoint := 65, name := "A", commonName := none
    category := "Misc", htmlEntity := "&#65;", cssCode := "\\41" }

/-- A small concrete environment: one category whose character list is
`[recA]`, everything classified as a plain character, only code point
128512 an emoji, an empty search index, no precomputed similar entries. -/
def env0 : Env :=
  { UNICODE_CATEGORIES := [cat0]
    getCommonName := fun _ => none
    isCharacter := fun _ => true
    isSymbol := fun _ => false
    isNumber := fun _ => false
    isEmoji := fun cp => cp == 128512
    searchCharacters := fun _ _ => []
    generateCharactersForCategory := fun _ => [recA]
    SIMILAR_CHARACTERS := fun _ => none }

/-- `env0` with a precomputed similar-characters entry for code point 65
that contains the queried code point itself. -/
def env5 : Env :=
  { env0 with
    SIMILAR_CHARACTERS := fun cp => if cp = 65 then some [65, 66] else none }

/-- Filter State with only the "emojis" type selected. -/
def st2 : FilterState :=
  { selectedCategories := [], selectedTypes := ["emojis"]
    searchQuery := "", drawnCharacters := [] }

/-- Filter State in the default all-types configuration with an active
search query. -/
def st4 : FilterState :=
  { selectedCategories := []
    selectedTypes := ["characters", "symbols", "numbers", "emojis"]
    searchQuery := "A", drawnCharacters := [] }

/-- Filter State in the default all-types configuration, browsing. -/
def st1 : FilterState :=
  { selectedCategories := []
    selectedTypes := ["characters", "symbols", "numbers", "emojis"]
    searchQuery := "", drawnCharacters := [] }

/-! ### Helper lemmas -/

theorem mapOrThrow_eq_some_map {α β : Type _} {f : α → Option β} {g : α → β}
    {l : List α} (h : ∀ a ∈ l, f a = some (g a)) :
    mapOrThrow f l = some (l.map g) := by
  induction l with
  | nil => rfl
  | cons a as ih =>
    have ha := h a (List.mem_cons_self a as)
    have ih2 := ih (fun x hx => h x (List.mem_cons_of_mem a hx))
    simp only [mapOrThrow, List.map_cons]
    rw [ha, ih2]
    rfl

theorem codePointAt0_getD_le {s : JSStr} (hwf : ∀ u ∈ s, u < 65536) :
    (codePointAt0 s).getD 0 ≤ 0x10FFFF := by
  cases s with
  | nil => rw [codePointAt0, Option.getD_none]; omega
  | cons u rest =>
    have hu : u < 65536 := hwf u (List.mem_cons_self u rest)
    cases rest with
    | nil =>
      rw [codePointAt0]
      by_cases h1 : 0xD800 ≤ u ∧ u ≤ 0xDBFF
      · rw [if_pos h1, Option.getD_some]; omega
      · rw [if_neg h1, Option.getD_some]; omega
    | cons l rest2 =>
      have hl : l < 65536 :=
        hwf l (List.mem_cons_of_mem u (List.mem_cons_self l rest2))
      rw [codePointAt0]
      by_cases h1 : 0xD800 ≤ u ∧ u ≤ 0xDBFF
      · rw [if_pos h1]
        by_cases h2 : 0xDC00 ≤ l ∧ l ≤ 0xDFFF
        · rw [if_pos h2, Option.getD_some]; omega
        · rw [if_neg h2, Option.getD_some]; omega
      · rw [if_neg h1, Option.getD_some]; omega

theorem createCharacterFromCodePoint_eq_some (env : Env) {cp : Nat}
    (h : cp ≤ 0x10FFFF) :
    createCharacterFromCodePoint env cp = some (buildCharacter env cp) := by
  simp [createCharacterFromCodePoint, h]

theorem selectedNotInResults_eq_map (env : Env) (rcps : List Nat)
    {sel : List Nat} (h : ∀ cp ∈ sel, cp ≤ 0x10FFFF) :
    selectedNotInResults env rcps sel =
      (sel.filter (fun cp => !decide (cp ∈ rcps))).map (buildCharacter env) := by
  induction sel with
  | nil => rfl
  | cons a as ih =>
    have ha : a ≤ 0x10FFFF := h a (List.mem_cons_self a as)
    have ih2 := ih (fun x hx => h x (List.mem_cons_of_mem a hx))
    by_cases hmem : a ∈ rcps
    · simpa [selectedNotInResults, List.filterMap_cons, List.filter_cons, hmem]
        using ih2
    · simpa [selectedNotInResults, List.filterMap_cons, List.filter_cons, hmem,
        createCharacterFromCodePoint_eq_some env ha] using ih2

theorem length_filter_nonEmoji_eq_zero {types : List String} :
    (types.filter (fun t => decide (t ∈ nonEmojiTypes))).length = 0 ↔
      ∀ t ∈ nonEmojiTypes, t ∉ types := by
  rw [List.length_eq_zero, List.filter_eq_nil_iff]
  constructor
  · intro h t ht hmem
    exact h t hmem (by simpa using ht)
  · intro h a ha hdec
    exact h a (by simpa using hdec) ha

theorem length_filter_nonEmoji_eq_three {types : List String}
    (h : types.Nodup) :
    (types.filter (fun t => decide (t ∈ nonEmojiTypes))).length = 3 ↔
      ∀ t ∈ nonEmojiTypes, t ∈ types := by
  have hsub : types.filter (fun t => decide (t ∈ nonEmojiTypes)) ⊆
      nonEmojiTypes := by
    intro x hx
    simpa using (List.mem_filter.mp hx).2
  have hlen3 : (types.filter (fun t => decide (t ∈ nonEmojiTypes))).length ≤ 3 :=
    le_trans (List.subperm_of_subset (h.filter _) hsub).length_le (by decide)
  constructor
  · intro hlen t ht
    have hperm :
        (types.filter (fun t => decide (t ∈ nonEmojiTypes))).Perm
          nonEmojiTypes :=
      (List.subperm_of_subset (h.filter _) hsub).perm_of_length_le
        (by rw [hlen]; decide)
    exact List.mem_of_mem_filter (hperm.mem_iff.mpr ht)
  · intro hall
    have hsub3 : nonEmojiTypes ⊆
        types.filter (fun t => decide (t ∈ nonEmojiTypes)) := by
      intro t ht
      exact List.mem_filter.mpr ⟨hall t ht, by simpa using ht⟩
    have h3 : 3 ≤ (types.filter (fun t => decide (t ∈ nonEmojiTypes))).length :=
      le_trans (by decide)
        (List.subperm_of_subset (by decide) hsub3).length_le
    omega

theorem applyTypeFilter_eq_spec (env : Env) {types : List String}
    (h : types.Nodup) (base : List UnicodeCharacter) :
    applyTypeFilter env types base = specTypeFilter env types base := by
  simp only [applyTypeFilter, specTypeFilter]
  rw [if_congr (or_congr length_filter_nonEmoji_eq_zero
    (length_filter_nonEmoji_eq_three h)) rfl rfl]

theorem baseCandidates_eq_spec (env : Env) (st : FilterState) (sel : List Nat)
    (hdrawn : ∀ s ∈ st.drawnCharacters, ∀ u ∈ s, u < 65536)
    (hsel : ∀ cp ∈ sel, cp ≤ 0x10FFFF) :
    baseCandidates env st sel = some (specBaseList env st sel) := by
  simp only [baseCandidates, specBaseList]
  by_cases hd : st.drawnCharacters = []
  · have hd1 : ¬ 0 < st.drawnCharacters.length := by simp [hd]
    have hd2 : ¬ st.drawnCharacters ≠ [] := by simp [hd]
    rw [if_neg hd1, if_neg hd2]
    by_cases hq : jsTrim st.searchQuery = ""
    · have hq1 : ¬ jsTrim st.searchQuery ≠ "" := by simp [hq]
      rw [if_neg hq1, if_neg hq1]
      by_cases hc : st.selectedCategories = []
      · have hc1 : ¬ 0 < st.selectedCategories.length := by simp [hc]
        have hc2 : ¬ st.selectedCategories ≠ [] := by simp [hc]
        rw [if_neg hc1, if_neg hc2]
      · have hc1 : 0 < st.selectedCategories.length := List.length_pos.mpr hc
        rw [if_pos hc1, if_pos hc]
    · have hq1 : jsTrim st.searchQuery ≠ "" := hq
      rw [if_pos hq1, if_pos hq1]
      by_cases hc : st.selectedCategories = []
      · have hc1 : ¬ 0 < st.selectedCategories.length := by simp [hc]
        have hc2 : ¬ st.selectedCategories ≠ [] := by simp [hc]
        rw [if_neg hc1, if_neg hc2]
        by_cases hs : sel = []
        · have hs1 : ¬ 0 < sel.length := by simp [hs]
          rw [if_neg hs1, hs]
          simp
        · rw [if_pos (List.length_pos.mpr hs),
            selectedNotInResults_eq_map env _ hsel]
      · have hc1 : 0 < st.selectedCategories.length := List.length_pos.mpr hc
        rw [if_pos hc1, if_pos hc]
        by_cases hs : sel = []
        · have hs1 : ¬ 0 < sel.length := by simp [hs]
          rw [if_neg hs1, hs]
          simp
        · rw [if_pos (List.length_pos.mpr hs),
            selectedNotInResults_eq_map env _ hsel]
  · rw [if_pos (List.length_pos.mpr hd), if_pos hd]
    exact mapOrThrow_eq_some_map (fun s hs =>
      createCharacterFromCodePoint_eq_some env
        (codePointAt0_getD_le (hdrawn s hs)))

/-! ### The claims -/

/-- C1: For every Filter State (with the selected types forming a set, the
drawn entries being genuine UTF-16 strings, and the Selection Set holding
valid code points), the filter pipeline agrees with the spec's section 4.4
algorithm: base-list precedence is drawn code points (in drawn order), then
search over the selected (or all) categories with selected-but-absent code
points prepended, then concatenation of the per-category lists in
category-table order; and the final list is the type-filtered non-emoji
records followed by all emoji records exactly when "emojis" is selected. -/
theorem claim1_filter_pipeline (env : Env) (st : FilterState) (sel : List Nat)
    (hnd : st.selectedTypes.Nodup)
    (hdrawn : ∀ s ∈ st.drawnCharacters, ∀ u ∈ s, u < 65536)
    (hsel : ∀ cp ∈ sel, cp ≤ 0x10FFFF) :
    characters env st sel = some (specFinalList env st sel) := by
  rw [characters, baseCandidates_eq_spec env st sel hdrawn hsel,
    Option.map_some', specFinalList, applyTypeFilter_eq_spec env hnd]

/-- Witness for C1 at a concrete input: the default browsing state over the
concrete environment `env0`. -/
theorem claim1_witness :
    characters env0 st1 [] = some (specFinalList env0 st1 []) :=
  claim1_filter_pipeline env0 st1 []
    (by decide) (by decide) (by decide)

/-- C2 counterexample: in `st2` ("emojis" selected, no non-emoji type
selected) over `env0`, the base candidates contain the non-emoji record
`recA` and the pipeline keeps it, so the final list is not the emoji subset
of the base candidates — the claim fails at this concrete input. -/
theorem claim2_counterexample :
    "emojis" ∈ st2.selectedTypes ∧
    st2.selectedTypes.filter (fun t => decide (t ∈ nonEmojiTypes)) = [] ∧
    characters env0 st2 [] = some [recA] ∧
    env0.isEmoji recA.codePoint = false ∧
    characters env0 st2 [] ≠
      (baseCandidates env0 st2 []).map
        (fun base => base.filter (fun ch => env0.isEmoji ch.codePoint)) :=
  ⟨by decide, by decide, by decide, by decide, by decide⟩

/-- C2 (amended): for every Filter State with "emojis" selected and an empty
set of selected non-emoji types, the final list is all non-emoji base
candidates (kept unfiltered, since none-selected is the unfiltered case of
the type filter) followed by the emoji base candidates; the non-emoji base
candidates are not excluded. -/
theorem claim2_emoji_and_empty_types (env : Env) (st : FilterState)
    (sel : List Nat)
    (h1 : "emojis" ∈ st.selectedTypes)
    (h2 : st.selectedTypes.filter (fun t => decide (t ∈ nonEmojiTypes)) = []) :
    characters env st sel = (baseCandidates env st sel).map (fun base =>
      base.filter (fun ch => !env.isEmoji ch.codePoint) ++
        base.filter (fun ch => env.isEmoji ch.codePoint)) := by
  rw [characters]
  cases hb : baseCandidates env st sel with
  | none => rfl
  | some base =>
    simp only [Option.map_some']
    congr 1
    simp only [applyTypeFilter, h2]
    rw [if_pos (show ([] : List String).length = 0 ∨
        ([] : List String).length = 3 from Or.inl rfl), if_pos h1]

/-- Witness for the amended C2 at a concrete input. -/
theorem claim2_witness :
    characters env0 st2 [] =
      (baseCandidates env0 st2 []).map (fun base =>
        base.filter (fun ch => !env0.isEmoji ch.codePoint) ++
          base.filter (fun ch => env0.isEmoji ch.codePoint)) :=
  claim2_emoji_and_empty_types env0 st2 [] (by decide) (by decide)

/-- C3: for every base candidate list, selecting all three non-emoji types
and selecting none of them produce identical final lists (with the same
"emojis" toggle `e`); in both cases every non-emoji base record is kept
unfiltered and emoji inclusion is governed solely by the toggle. -/
theorem claim3_all_vs_none_types (env : Env) (base : List UnicodeCharacter)
    (e : Bool) :
    applyTypeFilter env
        (["characters", "symbols", "numbers"] ++ if e then ["emojis"] else [])
        base
      = applyTypeFilter env (if e then ["emojis"] else []) base ∧
    applyTypeFilter env (if e then ["emojis"] else []) base
      = base.filter (fun ch => !env.isEmoji ch.codePoint) ++
          (if e then base.filter (fun ch => env.isEmoji ch.codePoint)
           else []) := by
  cases e <;> simp +decide [applyTypeFilter, nonEmojiTypes]

theorem applyTypeFilter_all_types (env : Env) {types : List String}
    (hnd : types.Nodup)
    (hc : "characters" ∈ types) (hsy : "symbols" ∈ types)
    (hn : "numbers" ∈ types) (he : "emojis" ∈ types)
    (base : List UnicodeCharacter) :
    applyTypeFilter env types base =
      base.filter (fun ch => !env.isEmoji ch.codePoint) ++
        base.filter (fun ch => env.isEmoji ch.codePoint) := by
  have h3 : (types.filter (fun t => decide (t ∈ nonEmojiTypes))).length = 3 :=
    (length_filter_nonEmoji_eq_three hnd).mpr (by
      intro t ht
      simp only [nonEmojiTypes, List.mem_cons, List.not_mem_nil, or_false] at ht
      rcases ht with rfl | rfl | rfl <;> assumption)
  simp only [applyTypeFilter]
  rw [if_pos (Or.inr h3), if_pos he]

/-- C4: for every Selection Set of valid code points and every state with a
non-empty search query (no drawn characters, the default all-four-types
type selection), each selected code point absent from the search results is
prepended to the candidate list ahead of the search results, and it is
therefore present in `selectedCharactersList`; moreover every filter/search
event of `Home` leaves the Selection Set unchanged. -/
theorem claim4_selection_survives_search (env : Env) (st : FilterState)
    (sel : List Nat) (cp : Nat)
    (hq : jsTrim st.searchQuery ≠ "")
    (hd : st.drawnCharacters = [])
    (hcp : cp ∈ sel) (hv : cp ≤ 0x10FFFF)
    (habs : cp ∉ (env.searchCharacters st.searchQuery
        (if 0 < st.selectedCategories.length then some st.selectedCategories
         else none)).map (fun c => c.codePoint))
    (hnd : st.selectedTypes.Nodup)
    (hc : "characters" ∈ st.selectedTypes)
    (hsy : "symbols" ∈ st.selectedTypes)
    (hn : "numbers" ∈ st.selectedTypes)
    (he : "emojis" ∈ st.selectedTypes) :
    (baseCandidates env st sel =
      some (selectedNotInResults env
          ((env.searchCharacters st.searchQuery
            (if 0 < st.selectedCategories.length then some st.selectedCategories
             else none)).map (fun c => c.codePoint)) sel
        ++ env.searchCharacters st.searchQuery
            (if 0 < st.selectedCategories.length then some st.selectedCategories
             else none)) ∧
      buildCharacter env cp ∈ selectedNotInResults env
          ((env.searchCharacters st.searchQuery
            (if 0 < st.selectedCategories.length then some st.selectedCategories
             else none)).map (fun c => c.codePoint)) sel) ∧
    (∃ l, selectedCharactersList env st sel = some l ∧
        cp ∈ l.map (fun c => c.codePoint)) ∧
    (∀ hst : HomeState, ∀ ev : HomeEvent,
        (homeStep env hst ev).selectedCharacters = hst.selectedCharacters) := by
  have hsel_ne : sel ≠ [] := by
    intro h
    rw [h] at hcp
    exact absurd hcp (List.not_mem_nil cp)
  have hd1 : ¬ 0 < st.drawnCharacters.length := by simp [hd]
  have hbase : baseCandidates env st sel =
      some (selectedNotInResults env
          ((env.searchCharacters st.searchQuery
            (if 0 < st.selectedCategories.length then some st.selectedCategories
             else none)).map (fun c => c.codePoint)) sel
        ++ env.searchCharacters st.searchQuery
            (if 0 < st.selectedCategories.length then some st.selectedCategories
             else none)) := by
    simp only [baseCandidates]
    rw [if_neg hd1, if_pos hq, if_pos (List.length_pos.mpr hsel_ne)]
  have hmem_pre : buildCharacter env cp ∈ selectedNotInResults env
      ((env.searchCharacters st.searchQuery
        (if 0 < st.selectedCategories.length then some st.selectedCategories
         else none)).map (fun c => c.codePoint)) sel := by
    refine List.mem_filterMap.mpr ⟨cp, hcp, ?_⟩
    rw [if_neg habs]
    exact createCharacterFromCodePoint_eq_some env hv
  refine ⟨⟨hbase, hmem_pre⟩, ?_, fun hst ev => by cases ev <;> rfl⟩
  have hmem_base : buildCharacter env cp ∈ (selectedNotInResults env
      ((env.searchCharacters st.searchQuery
        (if 0 < st.selectedCategories.length then some st.selectedCategories
         else none)).map (fun c => c.codePoint)) sel
    ++ env.searchCharacters st.searchQuery
        (if 0 < st.selectedCategories.length then some st.selectedCategories
         else none)) := List.mem_append_left _ hmem_pre
  have hchars : characters env st sel =
      some (applyTypeFilter env st.selectedTypes
        (selectedNotInResults env
            ((env.searchCharacters st.searchQuery
              (if 0 < st.selectedCategories.length then some st.selectedCategories
               else none)).map (fun c => c.codePoint)) sel
          ++ env.searchCharacters st.searchQuery
              (if 0 < st.selectedCategories.length then some st.selectedCategories
               else none))) := by
    rw [characters, hbase, Option.map_some']
  rw [applyTypeFilter_all_types env hnd hc hsy hn he] at hchars
  have hmem_final : buildCharacter env cp ∈
      ((selectedNotInResults env
          ((env.searchCharacters st.searchQuery
            (if 0 < st.selectedCategories.length then some st.selectedCategories
             else none)).map (fun c => c.codePoint)) sel
        ++ env.searchCharacters st.searchQuery
            (if 0 < st.selectedCategories.length then some st.selectedCategories
             else none)).filter (fun ch => !env.isEmoji ch.codePoint) ++
       (selectedNotInResults env
          ((env.searchCharacters st.searchQuery
            (if 0 < st.selectedCategories.length then some st.selectedCategories
             else none)).map (fun c => c.codePoint)) sel
        ++ env.searchCharacters st.searchQuery
            (if 0 < st.selectedCategories.length then some st.selectedCategories
             else none)).filter (fun ch => env.isEmoji ch.codePoint)) := by
    cases hem : env.isEmoji (buildCharacter env cp).codePoint with
    | false =>
      exact List.mem_append_left _
        (List.mem_filter.mpr ⟨hmem_base, by rw [hem]; rfl⟩)
    | true =>
      exact List.mem_append_right _
        (List.mem_filter.mpr ⟨hmem_base, hem⟩)
  refine ⟨_, by rw [selectedCharactersList, hchars, Option.map_some'], ?_⟩
  refine List.mem_map.mpr ⟨buildCharacter env cp, ?_, rfl⟩
  exact List.mem_filter.mpr ⟨hmem_final, by simpa using hcp⟩

/-- Witness for C4 at a concrete input: code point 65 is selected, the
query "A" returns no results over `env0`, and 65 survives into
`selectedCharactersList`. -/
theorem claim4_witness :
    (baseCandidates env0 st4 [65] =
      some (selectedNotInResults env0
          ((env0.searchCharacters st4.searchQuery
            (if 0 < st4.selectedCategories.length then some st4.selectedCategories
             else none)).map (fun c => c.codePoint)) [65]
        ++ env0.searchCharacters st4.searchQuery
            (if 0 < st4.selectedCategories.length then some st4.selectedCategories
             else none)) ∧
      buildCharacter env0 65 ∈ selectedNotInResults env0
          ((env0.searchCharacters st4.searchQuery
            (if 0 < st4.selectedCategories.length then some st4.selectedCategories
             else none)).map (fun c => c.codePoint)) [65]) ∧
    (∃ l, selectedCharactersList env0 st4 [65] = some l ∧
        65 ∈ l.map (fun c => c.codePoint)) ∧
    (∀ hst : HomeState, ∀ ev : HomeEvent,
        (homeStep env0 hst ev).selectedCharacters = hst.selectedCharacters) :=
  claim4_selection_survives_search env0 st4 [65] 65
    (by decide) (by decide) (by decide) (by decide) (by decide)
    (by decide) (by decide) (by decide) (by decide) (by decide)

/-- C5 counterexample: in `env5` code point 65 has the precomputed entry
`[65, 66]`; the resolver with `forceRecompute = false` makes no
recognition-service call but returns a list that still contains the queried
code point 65, so the claimed self-exclusion fails at this concrete
input. -/
theorem claim5_counterexample :
    env5.SIMILAR_CHARACTERS 65 = some [65, 66] ∧
    (similarResult env5 65 false none).1 = false ∧
    65 ∈ (similarResult env5 65 false none).2.map (fun c => c.codePoint) :=
  ⟨by decide, by decide, by decide⟩

/-- C5 (amended): for every code point with a precomputed entry, the
resolver called with `forceRecompute = false` returns the records for that
entry as stored — skipping entries whose conversion fails, and including
the queried code point when the entry contains it — without calling the
external recognition service. -/
theorem claim5_precomputed_path (env : Env) (cp : Nat) (entry : List Nat)
    (resp : Option (List JSStr))
    (h : env.SIMILAR_CHARACTERS cp = some entry) :
    similarResult env cp false resp =
      (false, codePointsToCharacters env entry) := by
  simp [similarResult, h]

/-- Witness for the amended C5 at a concrete input. -/
theorem claim5_witness :
    similarResult env5 65 false none =
      (false, codePointsToCharacters env5 [65, 66]) :=
  claim5_precomputed_path env5 65 [65, 66] none (by decide)

/-- C6: a similar-characters result computed for `x` (by any of the
precomputed, recognition-service, or failure paths, all folded into
`similarResult`) is applied only when the tracked query code point at the
moment of resolution equals `x`; a stale resolution leaves the modal state
(and hence the displayed result list) unchanged, and in particular a
resolution for `x` arriving after a switch to a different character `y`
changes nothing. -/
theorem claim6_stale_result_discarded (env : Env) (st : ModalState)
    (x y : Nat) (force : Bool) (resp : Option (List JSStr)) :
    (st.currentCodePointRef ≠ some x →
      resolveSimilar env st x force resp = st) ∧
    (st.currentCodePointRef = some x →
      resolveSimilar env st x force resp =
        { st with similarCharacters := (similarResult env x force resp).2 }) ∧
    (y ≠ x →
      resolveSimilar env (setCurrentCharacter st y) x force resp =
        setCurrentCharacter st y) := by
  refine ⟨fun h => by rw [resolveSimilar, if_neg h],
    fun h => by rw [resolveSimilar, if_pos h], fun hxy => ?_⟩
  have hne : (setCurrentCharacter st y).currentCodePointRef ≠ some x := by
    simp only [setCurrentCharacter]
    simp [hxy]
  rw [resolveSimilar, if_neg hne]

/-- Witness for C6 at a concrete input: the tracked code point is 1, the
resolution was requested for 2, and the state is unchanged. -/
theorem claim6_witness :
    resolveSimilar env0 ⟨some 1, []⟩ 2 false none = ⟨some 1, []⟩ :=
  (claim6_stale_result_discarded env0 ⟨some 1, []⟩ 2 3 false none).1
    (by decide)

/-- C7: on a candidate-list replacement the transition is classified as a
filter-change exactly when the previous and new lengths are positive,
`|new - old| < 0.8 * old` (stated over ℚ exactly as the claim phrases it),
and the saved scroll offset exceeds 100; a filter-change keeps
`visibleCount` and the saved scroll offset, while any other transition
resets `visibleCount` to the batch size 200 and the scroll offset to 0. -/
theorem claim7_filter_change_classification (st : GridState) (n : Nat) :
    (isLikelyFilterChange st.previousCharactersLength n st.scrollPosition ↔
      (0 < st.previousCharactersLength ∧ 0 < n ∧
        |(n : ℚ) - (st.previousCharactersLength : ℚ)| <
          (st.previousCharactersLength : ℚ) * 0.8 ∧
        100 < st.scrollPosition)) ∧
    (isLikelyFilterChange st.previousCharactersLength n st.scrollPosition →
      onCharactersChange st n = { st with previousCharactersLength := n }) ∧
    (¬ isLikelyFilterChange st.previousCharactersLength n st.scrollPosition →
      onCharactersChange st n =
        { visibleCount := BATCH_SIZE, scrollPosition := 0,
          previousCharactersLength := n }) := by
  set p := st.previousCharactersLength with hp
  have hcast : ((max n p - min n p : Nat) : ℚ) = |(n : ℚ) - (p : ℚ)| := by
    rcases le_total n p with h | h
    · rw [max_eq_right h, min_eq_left h, Nat.cast_sub h, abs_sub_comm,
        abs_of_nonneg (sub_nonneg.mpr (Nat.cast_le.mpr h))]
    · rw [max_eq_left h, min_eq_right h, Nat.cast_sub h,
        abs_of_nonneg (sub_nonneg.mpr (Nat.cast_le.mpr h))]
  have key : 5 * (max n p - min n p) < 4 * p ↔
      |(n : ℚ) - (p : ℚ)| < (p : ℚ) * 0.8 := by
    rw [show (0.8 : ℚ) = 4 / 5 by norm_num, ← hcast]
    constructor
    · intro hlt
      have h5 : ((5 * (max n p - min n p) : Nat) : ℚ) < ((4 * p : Nat) : ℚ) :=
        Nat.cast_lt.mpr hlt
      push_cast at h5
      linarith
    · intro hlt
      have h5 : ((5 * (max n p - min n p) : Nat) : ℚ) < ((4 * p : Nat) : ℚ) := by
        push_cast
        linarith
      exact_mod_cast h5
  refine ⟨?_, fun h => by rw [onCharactersChange, if_pos h],
    fun h => by rw [onCharactersChange, if_neg h]⟩
  unfold isLikelyFilterChange
  constructor
  · rintro ⟨a, b, c, d⟩
    exact ⟨a, b, key.mp c, d⟩
  · rintro ⟨a, b, c, d⟩
    exact ⟨a, b, key.mpr c, d⟩

/-- Witness for C7 at concrete inputs: a filter-change transition
(lengths 100 → 90, offset 150) keeps the state, and a reset transition
(offset 0) restores the batch size and zero offset. -/
theorem claim7_witness :
    onCharactersChange ⟨200, (150 : ℚ), 100⟩ 90 = ⟨200, (150 : ℚ), 90⟩ ∧
    onCharactersChange ⟨200, (0 : ℚ), 100⟩ 90 =
      ⟨BATCH_SIZE, 0, 90⟩ :=
  ⟨(claim7_filter_change_classification ⟨200, (150 : ℚ), 100⟩ 90).2.1
      (by decide),
    (claim7_filter_change_classification ⟨200, (0 : ℚ), 100⟩ 90).2.2
      (by decide)⟩

/-- C8 counterexample: a scroll event within the load threshold of the
bottom (distance 0 < 300) with unrendered candidates remaining
(200 rendered of 1000) does not grow `visibleCount` while the debounce
cooldown flag is set, refuting "every scroll event within the load
threshold ... grows visibleCount by one batch" at this concrete input. -/
theorem claim8_counterexample :
    (0 : ℚ) < (LOAD_THRESHOLD : ℚ) ∧ 200 < 1000 ∧
    handleScroll true 200 1000 0 = 200 ∧
    handleScroll true 200 1000 0 ≠ min (200 + BATCH_SIZE) 1000 :=
  ⟨by decide, by decide, rfl, by decide⟩

/-- C8 (amended): the rendered list is always exactly the prefix
`candidates.take visibleCount` of the candidate list — appending the
remaining suffix restores the candidate list unchanged (so no reordering
and no deduplication), and its length is `min visibleCount` the candidate
count.  A scroll event within the load threshold of the bottom while
unrendered candidates remain grows `visibleCount` by one batch of 200
capped at the candidate count, provided the debounce cooldown flag is
clear; an event during the cooldown, or one failing the threshold test,
leaves `visibleCount` unchanged. -/
theorem claim8_incremental_render (chars : List UnicodeCharacter)
    (vc : Nat) (d : ℚ) :
    (visibleCharacters chars vc ++ chars.drop vc = chars) ∧
    ((visibleCharacters chars vc).length = min vc chars.length) ∧
    (handleScroll true vc chars.length d = vc) ∧
    (d < (LOAD_THRESHOLD : ℚ) → vc < chars.length →
      handleScroll false vc chars.length d =
        min (vc + BATCH_SIZE) chars.length ∧
      handleScroll false vc chars.length d ≤ chars.length) ∧
    (¬ (d < (LOAD_THRESHOLD : ℚ) ∧ vc < chars.length) →
      handleScroll false vc chars.length d = vc) := by
  have hfb : ¬ (false = true) := Bool.false_ne_true
  refine ⟨List.take_append_drop vc chars, by simp [visibleCharacters], rfl,
    ?_, ?_⟩
  · intro h1 h2
    have hgrow : handleScroll false vc chars.length d =
        min (vc + BATCH_SIZE) chars.length := by
      rw [handleScroll, if_neg hfb, if_pos ⟨h1, h2⟩]
    exact ⟨hgrow, by rw [hgrow]; exact min_le_right _ _⟩
  · intro h
    rw [handleScroll, if_neg hfb, if_neg h]

/-- Witness for the amended C8 at a concrete input: 1 of 3 candidates
rendered, scroll at the bottom, cooldown clear; `visibleCount` grows to
`min (1 + 200) 3 = 3`. -/
theorem claim8_witness :
    handleScroll false 1 ([recA, recA, recA] : List UnicodeCharacter).length 0
        = min (1 + BATCH_SIZE) ([recA, recA, recA] : List UnicodeCharacter).length ∧
    handleScroll false 1 ([recA, recA, recA] : List UnicodeCharacter).length 0
        ≤ ([recA, recA, recA] : List UnicodeCharacter).length :=
  (claim8_incremental_render [recA, recA, recA] 1 0).2.2.2.1
    (by decide) (by decide)

/-- C9: in each path converting raw code points to display records a
failing item is skipped individually while the rest of the batch is
produced.  Drawn path: the conversion is total on what `codePointAt(0)`
(with the `|| 0` default) can produce from a UTF-16 string, so the uncaught
`map` never aborts and yields every record.  Prepend path and
similar-character construction: a code point whose conversion fails is
dropped while the items before and after it all survive. -/
theorem claim9_skip_invalid_items (env : Env) (drawn : List JSStr)
    (resultCodePoints : List Nat) (pre post : List Nat) (bad : Nat)
    (hwf : ∀ s ∈ drawn, ∀ u ∈ s, u < 65536)
    (hbad : createCharacterFromCodePoint env bad = none) :
    mapOrThrow
        (fun s => createCharacterFromCodePoint env ((codePointAt0 s).getD 0))
        drawn
      = some (drawn.map (fun s => buildCharacter env ((codePointAt0 s).getD 0))) ∧
    selectedNotInResults env resultCodePoints (pre ++ bad :: post)
      = selectedNotInResults env resultCodePoints pre
          ++ selectedNotInResults env resultCodePoints post ∧
    codePointsToCharacters env (pre ++ bad :: post)
      = codePointsToCharacters env pre ++ codePointsToCharacters env post := by
  refine ⟨mapOrThrow_eq_some_map (fun s hs =>
      createCharacterFromCodePoint_eq_some env
        (codePointAt0_getD_le (hwf s hs))), ?_, ?_⟩
  · by_cases hm : bad ∈ resultCodePoints
    · simp [selectedNotInResults, List.filterMap_append, List.filterMap_cons,
        hm]
    · simp [selectedNotInResults, List.filterMap_append, List.filterMap_cons,
        hm, hbad]
  · simp [codePointsToCharacters, List.filterMap_append, List.filterMap_cons,
      hbad]

/-- Witness for C9 at a concrete input: the drawn string "A", and batches
around the invalid code point 1114112 (which exceeds 0x10FFFF). -/
theorem claim9_witness :
    mapOrThrow
        (fun s => createCharacterFromCodePoint env0 ((codePointAt0 s).getD 0))
        [[65]]
      = some ([[65]].map
          (fun s => buildCharacter env0 ((codePointAt0 s).getD 0))) ∧
    selectedNotInResults env0 [] ([65] ++ 1114112 :: [66])
      = selectedNotInResults env0 [] [65]
          ++ selectedNotInResults env0 [] [66] ∧
    codePointsToCharacters env0 ([65] ++ 1114112 :: [66])
      = codePointsToCharacters env0 [65] ++ codePointsToCharacters env0 [66] :=
  claim9_skip_invalid_items env0 [[65]] [] [65] [66] 1114112
    (by decide) (by decide)

/-- C10: toggling a code point is an involution on the Selection Set:
toggling an absent code point adds exactly it, toggling a present one
removes exactly it, every other member's membership is unchanged, and a
double toggle restores the Selection Set (literally when the code point was
absent; up to permutation — i.e. as a set — when it was present, since the
re-added element returns at the end of the insertion order).  Toggling also
preserves the `Set` duplicate-freeness invariant. -/
theorem claim10_toggle_involution (sel : List Nat) (cp : Nat) :
    (∀ x, x ∈ onToggleSelect sel cp ↔
      ((x ∈ sel ∧ x ≠ cp) ∨ (x = cp ∧ cp ∉ sel))) ∧
    (∀ x, x ∈ onToggleSelect (onToggleSelect sel cp) cp ↔ x ∈ sel) ∧
    (sel.Nodup → (onToggleSelect sel cp).Nodup ∧
      (onToggleSelect (onToggleSelect sel cp) cp).Perm sel) := by
  by_cases h : cp ∈ sel
  · have hnotin : cp ∉ sel.filter (fun x => x ≠ cp) := by
      intro hx
      have := (List.mem_filter.mp hx).2
      simp at this
    have ht1 : onToggleSelect sel cp = sel.filter (fun x => x ≠ cp) := by
      rw [onToggleSelect, if_pos h]
    have ht2 : onToggleSelect (onToggleSelect sel cp) cp =
        sel.filter (fun x => x ≠ cp) ++ [cp] := by
      rw [ht1, onToggleSelect, if_neg hnotin]
    refine ⟨?_, ?_, ?_⟩
    · intro x
      rw [ht1]
      simp only [List.mem_filter, decide_eq_true_eq]
      constructor
      · rintro ⟨hx, hne⟩
        exact Or.inl ⟨hx, hne⟩
      · rintro (⟨hx, hne⟩ | ⟨rfl, habs⟩)
        · exact ⟨hx, hne⟩
        · exact absurd h habs
    · intro x
      rw [ht2]
      simp only [List.mem_append, List.mem_filter, List.mem_singleton,
        decide_eq_true_eq]
      constructor
      · rintro (⟨hx, _⟩ | rfl)
        · exact hx
        · exact h
      · intro hx
        by_cases hxc : x = cp
        · exact Or.inr hxc
        · exact Or.inl ⟨hx, hxc⟩
    · intro hnd
      refine ⟨ht1 ▸ hnd.filter _, ?_⟩
      have efun : (fun x : Nat => decide (x ≠ cp)) = (fun x : Nat => x != cp) := by
        funext x
        by_cases hx : x = cp <;> simp [hx]
      have e1 : sel.filter (fun x => decide (x ≠ cp)) = sel.erase cp := by
        rw [efun, ← hnd.erase_eq_filter cp]
      rw [ht2, e1]
      exact (List.perm_append_singleton cp _).trans
        (List.perm_cons_erase h).symm
  · have ht1 : onToggleSelect sel cp = sel ++ [cp] := by
      rw [onToggleSelect, if_neg h]
    have hfilter : sel.filter (fun x => x ≠ cp) = sel :=
      List.filter_eq_self.mpr (fun a ha => by
        simp only [decide_eq_true_eq]
        intro hac
        exact h (hac ▸ ha))
    have ht2 : onToggleSelect (onToggleSelect sel cp) cp = sel := by
      rw [ht1, onToggleSelect,
        if_pos (List.mem_append_right sel (List.mem_singleton_self cp)),
        List.filter_append, hfilter]
      simp
    refine ⟨?_, ?_, ?_⟩
    · intro x
      rw [ht1]
      simp only [List.mem_append, List.mem_singleton]
      constructor
      · rintro (hx | rfl)
        · exact Or.inl ⟨hx, fun hxc => h (hxc ▸ hx)⟩
        · exact Or.inr ⟨rfl, h⟩
      · rintro (⟨hx, _⟩ | ⟨rfl, _⟩)
        · exact Or.inl hx
        · exact Or.inr rfl
    · intro x
      rw [ht2]
    · intro hnd
      refine ⟨?_, by rw [ht2]⟩
      rw [ht1]
      simp [List.nodup_append, hnd, h]

/-- Witness for C10 at a concrete input: toggling 2 out of the duplicate-free
selection [1, 2] and back restores it up to permutation (here literally). -/
theorem claim10_witness :
    (onToggleSelect [1, 2] 2).Nodup ∧
    (onToggleSelect (onToggleSelect [1, 2] 2) 2).Perm [1, 2] :=
  (claim10_toggle_involution [1, 2] 2).2.2 (by decide)

end UnicodeAtlas
